import Mathlib

/-!
Verification of the credential-resolution core of `aws-cdk-secure-api`.

Shallow embedding of:
  * `aws_cdk_secure_api/cache.py` — the file-backed, two-level API-key cache
    (module-level load of `~/.cdk/cache/apigw_api_keys.json`, `APIKeyCache.get_api_key`,
    `APIKeyCache.save_api_key`);
  * `aws_cdk_secure_api/aws/ssm_parameter_store.py` — `SSM.get_param` / `SSM.put_param`;
  * `aws_cdk_secure_api/aws/secrets_manager.py` — `SecretsManager.generate_api_key`;
  * the credential-resolution portion of `SecureRestApi.__init__`
    (`aws_cdk_secure_api/api_construct.py`, lines 80-120), which the spec calls
    `resolve(account_id, stack_name, ...)`;
  * `SecureRestApi.add_methods` / `IAMSecureRestApi.add_methods` and the `Http` enum
    (`aws_cdk_secure_api/models.py`).

Python dictionaries are modelled as total functions to `Option`; mutation of the
module-global `_keys` mapping and of the remote SSM parameter store is modelled by
explicit state passing (a `World` record threaded through `resolve`), and the side
effects of one resolution call (SSM reads, SSM writes, SecretsManager calls,
cache-file rewrites) are recorded in an explicit `Trace`.
-/

/-- The two-level cache mapping of `cache.py`: `account -> stack_name -> api_key`
(the module-global `_keys` dictionary, a JSON object of objects on disk). -/
abbrev Keys := String → String → Option String

/-- The empty nested mapping (`_keys = {}` in `cache.py`). -/
def emptyKeys : Keys := fun _ _ => none

/-- Module-level cache load of `cache.py` (lines 14-19): `json.load` the backing
file inside a `try` that catches only `FileNotFoundError` (yielding `{}`); any
parse failure from `json.load` on an existing file escapes the handler.
`file` is `none` when the backing file does not exist, otherwise its text;
`parse` stands for `json.load` on that text. -/
def load_keys (file : Option String) (parse : String → Except String Keys) :
    Except String Keys :=
  match file with
  | some text => parse text
  | none => Except.ok emptyKeys

/-- `APIKeyCache.get_api_key` (`cache.py` lines 33-38): `_keys[account][stack_name]`,
with any `KeyError` at either level converted to `None`. -/
def APIKeyCache.get_api_key (keys : Keys) (account stack_name : String) :
    Option String :=
  keys account stack_name

/-- `APIKeyCache.save_api_key` (`cache.py` lines 40-45):
`_keys.setdefault(account, {})[stack_name] = api_key` — insert-or-overwrite one
entry in the submap of `account`, leaving every other account's submap and every
other stack's entry untouched (the full-file JSON rewrite is the `cacheFileWrites`
count in `Trace`). -/
def APIKeyCache.save_api_key (keys : Keys) (account stack_name api_key : String) :
    Keys :=
  fun a =>
    if a = account then
      fun s => if s = stack_name then some api_key else keys a s
    else keys a

/-- An SSM parameter's `Type` field (`String | StringList | SecureString`). -/
inductive ParamType
  | string
  | stringList
  | secureString
deriving DecidableEq

/-- A remote SSM parameter record as read back by `get_parameter`: its `Type`
and its (decrypted) `Value`. -/
structure Parameter where
  type : ParamType
  value : String
deriving DecidableEq

/-- What `SSM.get_param` hands back for an existing parameter: the raw value
string, or — for a `StringList` parameter — the value split on commas. -/
inductive ParamValue
  | str (s : String)
  | list (l : List String)
deriving DecidableEq

/-- Outcome of the underlying `client.get_parameter` call: a parameter record,
the `ParameterNotFound` client exception, or any other failure (auth, network,
throttling, ...) carrying its message. -/
inductive GetParameterResponse
  | success (p : Parameter)
  | parameterNotFound
  | failure (msg : String)
deriving DecidableEq

/-- `SSM.get_param` (`ssm_parameter_store.py` lines 19-50): on success take
`parameter['Value']`, split it on commas when `parameter['Type'] == 'StringList'`;
catch only `ParameterNotFound` (returning `None`); every other exception
propagates. -/
def SSM.get_param (response : GetParameterResponse) :
    Except String (Option ParamValue) :=
  match response with
  | GetParameterResponse.success p =>
      let value := p.value
      if p.type = ParamType.stringList then
        Except.ok (some (ParamValue.list (value.splitOn ",")))
      else
        Except.ok (some (ParamValue.str value))
  | GetParameterResponse.parameterNotFound => Except.ok none
  | GetParameterResponse.failure msg => Except.error msg

/-- The `put_parameter` request built by `SSM.put_param`: `Description` and
`KeyId` are present only when the corresponding argument is truthy. -/
structure PutParameterRequest where
  name : String
  value : String
  type : String
  overwrite : Bool
  tier : String
  dataType : String
  description : Option String
  keyId : Option String
deriving DecidableEq

/-- `SSM.put_param` (`ssm_parameter_store.py` lines 52-115): builds the
`put_parameter` request; `Overwrite` defaults to `False`, `Type` to
`'SecureString'`, `Tier` to `'Standard'`, `DataType` to `'text'`; `Description`
and `KeyId` enter `kwargs` only under Python truthiness (`if description:` /
`if key_id:`), so `none` and the empty string are both omitted. -/
def SSM.put_param (name : String) (value : String)
    (description : Option String := none)
    (type : String := "SecureString")
    (key_id : Option String := none)
    (tier : String := "Standard")
    (data_type : String := "text")
    (overwrite : Bool := false) : PutParameterRequest :=
  { name := name
    value := value
    type := type
    overwrite := overwrite
    tier := tier
    dataType := data_type
    description := match description with
      | some d => if d = "" then none else some d
      | none => none
    keyId := match key_id with
      | some k => if k = "" then none else some k
      | none => none }

/-- The default `ExcludeCharacters` of `SecretsManager.generate_api_key`
(`secrets_manager.py`): the Python literal `' ^,%+~`#$&*()|[]{}:;<>?!\'/@"\\'`. -/
def defaultExcludeChars : String := " ^,%+~`#$&*()|[]\x7b\x7d:;<>?!\x27/@\"\\"

/-- `SecretsManager.generate_api_key` (`secrets_manager.py` lines 11-27): calls
`secretsmanager:GetRandomPassword` with `PasswordLength=length` (default 32) and
`ExcludeCharacters=exclude_chars` (default `defaultExcludeChars`). The remote
service is the oracle `random_password`. -/
def SecretsManager.generate_api_key (random_password : Nat → String → String)
    (length : Nat := 32) (exclude_chars : String := defaultExcludeChars) :
    String :=
  random_password length exclude_chars

/-- The canonical remote parameter name `f'/{stack_name}/api-key'`
(`api_construct.py` line 101). -/
def param_name (stack_name : String) : String :=
  "/" ++ stack_name ++ "/api-key"

/-- The mutable state a resolution call reads and writes: the local key cache
(module-global `_keys`, backed by the cache file) and the remote SSM parameter
store for the selected region/profile. The remote store is restricted to the
`SecureString` parameters this resolver creates and reads back (`put_param`
defaults `type='SecureString'`); `SSM.get_param`'s `StringList` handling is
modelled in full separately. -/
structure World where
  localCache : Keys
  remoteStore : String → Option String

/-- The external random-password service (`secretsmanager:GetRandomPassword`),
as a function from `(PasswordLength, ExcludeCharacters)` to the password. -/
structure Env where
  random_password : Nat → String → String

/-- Side effects of one resolution call: SSM parameter names read, `put_parameter`
requests issued, `GetRandomPassword` calls issued as `(length, exclude_chars)`
pairs, and full-file rewrites of the local cache file. -/
structure Trace where
  remoteGets : List String
  remotePuts : List PutParameterRequest
  genCalls : List (Nat × String)
  cacheFileWrites : Nat
deriving DecidableEq

/-- The empty trace: no SSM reads or writes, no generator calls, no cache-file
writes. -/
def emptyTrace : Trace :=
  { remoteGets := [], remotePuts := [], genCalls := [], cacheFileWrites := 0 }

/-- Result of one resolution call: the resolved API-key value, the state after
the call, and the effect trace of the call. -/
structure ResolveResult where
  value : String
  world : World
  trace : Trace

/-- The credential-resolution core of `SecureRestApi.__init__`
(`api_construct.py` lines 80-120); the spec's
`resolve(account_id, stack_name, region, profile, key_id)` plus the `test` flag:

* `test` short-circuits to the sentinel `'test123'` with no cache or remote access;
* otherwise `cache.get_api_key()` is consulted first;
* on a local miss, `ssm.get_param(f'/{stack_name}/api-key')` is consulted;
* on a remote miss, `sm.generate_api_key(40)` generates the key and
  `ssm.put_param(param_name, api_key_value, key_id=config.key_id)` persists it;
* in both miss cases `cache.save_api_key(api_key_value)` writes through to the
  local cache (one full-file rewrite).

`region`/`profile` select which remote account the clients target; they are
abstracted into the choice of `w.remoteStore` and `env`. -/
def SecureRestApi.resolve (env : Env) (w : World)
    (account stack_name : String) (key_id : Option String) (test : Bool) :
    ResolveResult :=
  if test then
    { value := "test123", world := w, trace := emptyTrace }
  else
    match APIKeyCache.get_api_key w.localCache account stack_name with
    | some api_key_value =>
        { value := api_key_value, world := w, trace := emptyTrace }
    | none =>
        let pn := param_name stack_name
        match w.remoteStore pn with
        | some api_key_value =>
            { value := api_key_value
              world :=
                { w with
                    localCache :=
                      APIKeyCache.save_api_key w.localCache account stack_name
                        api_key_value }
              trace :=
                { remoteGets := [pn], remotePuts := [], genCalls := []
                  cacheFileWrites := 1 } }
        | none =>
            let api_key_value :=
              SecretsManager.generate_api_key env.random_password 40
            let request := SSM.put_param pn api_key_value none "SecureString" key_id
            { value := api_key_value
              world :=
                { localCache :=
                    APIKeyCache.save_api_key w.localCache account stack_name
                      api_key_value
                  remoteStore := fun m =>
                    if m = pn then some api_key_value else w.remoteStore m }
              trace :=
                { remoteGets := [pn], remotePuts := [request]
                  genCalls := [(40, defaultExcludeChars)]
                  cacheFileWrites := 1 } }

/-- The `Http` enum of `models.py`: the seven HTTP methods. -/
inductive Http
  | OPTIONS
  | GET
  | HEAD
  | PUT
  | POST
  | DELETE
  | PATCH
deriving DecidableEq

/-- A Python enum member's `.name`: the symbolic name as a string. -/
def Http.name : Http → String
  | Http.OPTIONS => "OPTIONS"
  | Http.GET => "GET"
  | Http.HEAD => "HEAD"
  | Http.PUT => "PUT"
  | Http.POST => "POST"
  | Http.DELETE => "DELETE"
  | Http.PATCH => "PATCH"

/-- An `Http | str` argument of `add_methods`. -/
abbrev HttpOrStr := Http ⊕ String

/-- `getattr(method, 'name', method)` (`api_construct.py` lines 290 and 590):
an `Http` member contributes its `.name`; a plain string has no `name`
attribute, so the default — the string itself — is used verbatim. -/
def methodName : HttpOrStr → String
  | Sum.inl h => h.name
  | Sum.inr s => s

/-- `SecureRestApi.add_methods` (`api_construct.py` lines 248-294): raises when
no HTTP method is given, otherwise registers `getattr(method, 'name', method)`
for each argument on the target resource (with `api_key_required=True`); the
returned list is the sequence of method strings passed to
`resource.add_method`. -/
def SecureRestApi.add_methods (methods : List HttpOrStr) :
    Except String (List String) :=
  if methods.isEmpty then
    Except.error "At least one HTTP method is required."
  else
    Except.ok (methods.map methodName)

/-- `IAMSecureRestApi.add_methods` (`api_construct.py` lines 547-594): identical
method handling to `SecureRestApi.add_methods` (raises on zero methods,
normalizes each argument with `getattr(method, 'name', method)`), differing only
in registering with `authorization_type=IAM` instead of an API-key
requirement. -/
def IAMSecureRestApi.add_methods (methods : List HttpOrStr) :
    Except String (List String) :=
  if methods.isEmpty then
    Except.error "At least one HTTP method is required."
  else
    Except.ok (methods.map methodName)

/-- A concrete random-password service for evaluating the model on examples. -/
def envG : Env :=
  { random_password := fun _ _ => "generated-key" }

/-- A fresh deployment machine and account: empty local cache, empty remote
store. -/
def emptyWorld : World :=
  { localCache := emptyKeys, remoteStore := fun _ => none }

/-- A world with a local cache hit for `("123456789012", "my-stack")` and a
different value in the remote store for the same stack. -/
def warmWorld : World :=
  { localCache := fun a s =>
      if a = "123456789012" ∧ s = "my-stack" then some "cached-key" else none
    remoteStore := fun n =>
      if n = "/my-stack/api-key" then some "remote-key" else none }

/-- A world with an empty local cache but a populated remote store entry for
`"my-stack"`. -/
def remoteWorld : World :=
  { localCache := emptyKeys
    remoteStore := fun n =>
      if n = "/my-stack/api-key" then some "remote-key" else none }

/-- A `json.load` stand-in that fails on any input, as on a malformed cache
file (`json.decoder.JSONDecodeError: Expecting value`). -/
def failParse : String → Except String Keys :=
  fun _ => Except.error "Expecting value"

/-- Claim C1: strict priority order of resolution — a local-cache hit is
returned directly with an empty effect trace (no SSM read or write, no
generator call), and the generator is invoked only when the remote store's get
returned absent. -/
theorem resolve_priority_order (env : Env) (w : World)
    (account stack_name : String) (key_id : Option String) :
    (∀ v, w.localCache account stack_name = some v →
      SecureRestApi.resolve env w account stack_name key_id false =
        { value := v, world := w, trace := emptyTrace }) ∧
    ((SecureRestApi.resolve env w account stack_name key_id false).trace.genCalls
        ≠ [] →
      w.remoteStore (param_name stack_name) = none) := by
  constructor
  · intro v hv
    simp [SecureRestApi.resolve, APIKeyCache.get_api_key, hv]
  · intro hgen
    by_cases hl : w.localCache account stack_name = none
    · by_cases hr : w.remoteStore (param_name stack_name) = none
      · exact hr
      · exfalso
        apply hgen
        obtain ⟨v, hv⟩ := Option.ne_none_iff_exists'.mp hr
        simp [SecureRestApi.resolve, APIKeyCache.get_api_key, hl, hv]
    · exfalso
      apply hgen
      obtain ⟨v, hv⟩ := Option.ne_none_iff_exists'.mp hl
      simp [SecureRestApi.resolve, APIKeyCache.get_api_key, hv, emptyTrace]

/-- Witness for `resolve_priority_order` at concrete inputs: a warm cache for
`("123456789012", "my-stack")` yields the cached value with an empty trace even
though the remote store holds a different value; and on the empty world the
generator fires only because the remote store is absent at the parameter
name. -/
theorem resolve_priority_order_app :
    (SecureRestApi.resolve envG warmWorld "123456789012" "my-stack" none false =
      { value := "cached-key", world := warmWorld, trace := emptyTrace }) ∧
    emptyWorld.remoteStore (param_name "my-stack") = none := by
  constructor
  · exact (resolve_priority_order envG warmWorld "123456789012" "my-stack" none).1
      "cached-key" (by decide)
  · exact (resolve_priority_order envG emptyWorld "123456789012" "my-stack" none).2
      (by decide)

/-- Claim C2: cold start — on an empty local cache and empty remote store, one
resolution calls the generator exactly once with length 40 and the default
exclusion set, issues exactly one non-overwriting `SecureString` put of the
generated value at `/{stack_name}/api-key`, writes the same value through to
the local cache under `account -> stack_name`, and returns that value. -/
theorem resolve_cold_start (env : Env) (account stack_name : String)
    (key_id : Option String) :
    (SecureRestApi.resolve env emptyWorld account stack_name key_id
        false).trace.genCalls = [(40, defaultExcludeChars)] ∧
    (SecureRestApi.resolve env emptyWorld account stack_name key_id
        false).trace.remotePuts =
      [SSM.put_param ("/" ++ stack_name ++ "/api-key")
        (env.random_password 40 defaultExcludeChars) none "SecureString" key_id] ∧
    (SecureRestApi.resolve env emptyWorld account stack_name key_id
        false).world.remoteStore (param_name stack_name) =
      some (env.random_password 40 defaultExcludeChars) ∧
    (SecureRestApi.resolve env emptyWorld account stack_name key_id
        false).world.localCache account stack_name =
      some (env.random_password 40 defaultExcludeChars) ∧
    (SecureRestApi.resolve env emptyWorld account stack_name key_id
        false).value = env.random_password 40 defaultExcludeChars := by
  refine ⟨?_, ?_, ?_, ?_, ?_⟩ <;>
    simp [SecureRestApi.resolve, APIKeyCache.get_api_key,
      APIKeyCache.save_api_key, emptyWorld, emptyKeys, param_name,
      SecretsManager.generate_api_key]

/-- Claim C3: idempotent resolution — a second `resolve` on the world produced
by a first `resolve` returns the identical value and performs zero remote calls
(its trace is empty, so no SSM read or write, no generator call, and no
cache-file write). -/
theorem resolve_idempotent (env : Env) (w : World) (account stack_name : String)
    (key_id : Option String) :
    (SecureRestApi.resolve env
        (SecureRestApi.resolve env w account stack_name key_id false).world
        account stack_name key_id false).value =
      (SecureRestApi.resolve env w account stack_name key_id false).value ∧
    (SecureRestApi.resolve env
        (SecureRestApi.resolve env w account stack_name key_id false).world
        account stack_name key_id false).trace = emptyTrace := by
  cases hl : w.localCache account stack_name with
  | some v =>
      simp [SecureRestApi.resolve, APIKeyCache.get_api_key, hl]
  | none =>
      cases hr : w.remoteStore (param_name stack_name) with
      | some v =>
          simp [SecureRestApi.resolve, APIKeyCache.get_api_key,
            APIKeyCache.save_api_key, hl, hr]
      | none =>
          simp [SecureRestApi.resolve, APIKeyCache.get_api_key,
            APIKeyCache.save_api_key, hl, hr]

/-- Claim C4: write-through repair — starting from an empty local cache and a
remote store holding a value at the stack's parameter name, one resolution
leaves that value in the local cache under the pair, generates no new secret,
and returns the remote value. -/
theorem resolve_write_through_repair (env : Env) (w : World)
    (account stack_name v : String) (key_id : Option String)
    (hcache : ∀ a s, w.localCache a s = none)
    (hremote : w.remoteStore (param_name stack_name) = some v) :
    (SecureRestApi.resolve env w account stack_name key_id
        false).world.localCache account stack_name = some v ∧
    (SecureRestApi.resolve env w account stack_name key_id
        false).trace.genCalls = [] ∧
    (SecureRestApi.resolve env w account stack_name key_id false).value = v := by
  simp [SecureRestApi.resolve, APIKeyCache.get_api_key,
    APIKeyCache.save_api_key, hcache, hremote]

/-- Witness for `resolve_write_through_repair`: with an empty local cache and
`"remote-key"` stored at `/my-stack/api-key`, the resolution caches and returns
`"remote-key"` without generating. -/
theorem resolve_write_through_repair_app :
    (SecureRestApi.resolve envG remoteWorld "123456789012" "my-stack" none
        false).world.localCache "123456789012" "my-stack" = some "remote-key" ∧
    (SecureRestApi.resolve envG remoteWorld "123456789012" "my-stack" none
        false).trace.genCalls = [] ∧
    (SecureRestApi.resolve envG remoteWorld "123456789012" "my-stack" none
        false).value = "remote-key" :=
  resolve_write_through_repair envG remoteWorld "123456789012" "my-stack"
    "remote-key" none (fun _ _ => rfl) (by decide)

/-- Claim C8: test-mode bypass — with `test=True` the resolution returns the
sentinel `"test123"`, leaves the world (local cache and remote store) unchanged,
and has an empty effect trace: no SSM read or write, no generator call, and no
cache-file write. -/
theorem resolve_test_mode (env : Env) (w : World) (account stack_name : String)
    (key_id : Option String) :
    SecureRestApi.resolve env w account stack_name key_id true =
      { value := "test123", world := w, trace := emptyTrace } := rfl

/-- Claim C5: local cache load policy — when the backing file does not exist
(`FileNotFoundError` is the only exception caught), the cache initializes to
the empty nested mapping; when the file exists but `json.load` fails, the
error propagates instead of silently resetting the cache. -/
theorem load_keys_policy (parse : String → Except String Keys) :
    load_keys none parse = Except.ok emptyKeys ∧
    (∀ text msg, parse text = Except.error msg →
      load_keys (some text) parse = Except.error msg) := by
  constructor
  · rfl
  · intro text msg h
    simpa [load_keys] using h

/-- Witness for `load_keys_policy`: a missing file yields the empty mapping,
and a present but malformed file propagates the parse error. -/
theorem load_keys_policy_app :
    load_keys none failParse = Except.ok emptyKeys ∧
    load_keys (some "not json") failParse = Except.error "Expecting value" :=
  ⟨(load_keys_policy failParse).1,
    (load_keys_policy failParse).2 "not json" "Expecting value" rfl⟩

/-- Claim C6 counterexample: the claim says `get_param` returns the decrypted
parameter value as a string whenever the parameter exists, but for an existing
`StringList` parameter with value `"a,b"` the code returns the comma-split list
`["a", "b"]`, not the string `"a,b"`. -/
theorem get_param_stringlist_counterexample :
    SSM.get_param (GetParameterResponse.success
        { type := ParamType.stringList, value := "a,b" }) =
      Except.ok (some (ParamValue.list ("a,b".splitOn ","))) ∧
    SSM.get_param (GetParameterResponse.success
        { type := ParamType.stringList, value := "a,b" }) ≠
      Except.ok (some (ParamValue.str "a,b")) := by
  constructor
  · rfl
  · simp [SSM.get_param]

/-- Claim C6 (amended): `get_param` returns the decrypted value as a string for
every existing parameter whose type is not `StringList`; an existing
`StringList` parameter's value is split on commas and returned as a list of
strings; `ParameterNotFound` alone is converted to `None`; every other failure
propagates as an error. -/
theorem get_param_amended (p : Parameter) (msg : String)
    (hnl : p.type ≠ ParamType.stringList) :
    SSM.get_param (GetParameterResponse.success p) =
      Except.ok (some (ParamValue.str p.value)) ∧
    SSM.get_param (GetParameterResponse.success
        { type := ParamType.stringList, value := p.value }) =
      Except.ok (some (ParamValue.list (p.value.splitOn ","))) ∧
    SSM.get_param GetParameterResponse.parameterNotFound = Except.ok none ∧
    SSM.get_param (GetParameterResponse.failure msg) = Except.error msg := by
  refine ⟨?_, ?_, rfl, rfl⟩
  · simp [SSM.get_param, hnl]
  · simp [SSM.get_param]

/-- Witness for `get_param_amended` on a `SecureString` parameter and a
concrete non-not-found failure message. -/
theorem get_param_amended_app :
    SSM.get_param (GetParameterResponse.success
        { type := ParamType.secureString, value := "k-1" }) =
      Except.ok (some (ParamValue.str "k-1")) ∧
    SSM.get_param (GetParameterResponse.success
        { type := ParamType.stringList, value := "k-1" }) =
      Except.ok (some (ParamValue.list (String.splitOn "k-1" ","))) ∧
    SSM.get_param GetParameterResponse.parameterNotFound = Except.ok none ∧
    SSM.get_param (GetParameterResponse.failure "AccessDeniedException") =
      Except.error "AccessDeniedException" :=
  get_param_amended { type := ParamType.secureString, value := "k-1" }
    "AccessDeniedException" (by decide)

/-- Claim C7: `put_param` defaults to non-overwriting semantics (`Overwrite`
is `False` unless explicitly supplied), and every `put_parameter` request a
resolution issues targets a name on which the remote store's preceding get
(recorded in `remoteGets`) returned absent, with the overwrite flag left
`False`. -/
theorem put_param_nonoverwrite (n v : String) (env : Env) (w : World)
    (account stack_name : String) (key_id : Option String) :
    (SSM.put_param n v).overwrite = false ∧
    (∀ q ∈ (SecureRestApi.resolve env w account stack_name key_id
        false).trace.remotePuts,
      w.remoteStore q.name = none ∧
      q.name ∈ (SecureRestApi.resolve env w account stack_name key_id
        false).trace.remoteGets ∧
      q.overwrite = false) := by
  constructor
  · rfl
  · intro q hq
    cases hl : w.localCache account stack_name with
    | some x =>
        simp [SecureRestApi.resolve, APIKeyCache.get_api_key, hl,
          emptyTrace] at hq
    | none =>
        cases hr : w.remoteStore (param_name stack_name) with
        | some x =>
            simp [SecureRestApi.resolve, APIKeyCache.get_api_key, hl,
              hr] at hq
        | none =>
            simp [SecureRestApi.resolve, APIKeyCache.get_api_key, hl,
              hr] at hq
            subst hq
            refine ⟨?_, ?_, rfl⟩
            · simpa [SSM.put_param] using hr
            · simp [SecureRestApi.resolve, APIKeyCache.get_api_key, hl, hr,
                SSM.put_param]

/-- Witness for `put_param_nonoverwrite`: the concrete request issued by a
cold-start resolution of `"my-stack"` targets `/my-stack/api-key`, on which the
store get returned absent, and carries `Overwrite=False`; the default-argument
conjunct is exercised on a concrete name and value. -/
theorem put_param_nonoverwrite_app :
    (SSM.put_param "/Prod/Db/Password" "my-value").overwrite = false ∧
    emptyWorld.remoteStore (SSM.put_param "/my-stack/api-key" "generated-key"
        none "SecureString" none).name = none ∧
    (SSM.put_param "/my-stack/api-key" "generated-key" none "SecureString"
        none).name ∈ (SecureRestApi.resolve envG emptyWorld "123456789012"
          "my-stack" none false).trace.remoteGets ∧
    (SSM.put_param "/my-stack/api-key" "generated-key" none "SecureString"
        none).overwrite = false := by
  have h := put_param_nonoverwrite "/Prod/Db/Password" "my-value" envG
    emptyWorld "123456789012" "my-stack" none
  exact ⟨h.1, h.2 (SSM.put_param "/my-stack/api-key" "generated-key" none
    "SecureString" none) (by decide)⟩

/-- Claim C9: cache update frame property — after `save_api_key` the pair maps
to the new value, every other `(account, stack)` pair maps to exactly what it
mapped to before, and no present entry becomes absent. -/
theorem save_api_key_frame (keys : Keys) (account stack_name v : String) :
    APIKeyCache.save_api_key keys account stack_name v account stack_name =
      some v ∧
    (∀ a s, ¬(a = account ∧ s = stack_name) →
      APIKeyCache.save_api_key keys account stack_name v a s = keys a s) ∧
    (∀ a s w, keys a s = some w →
      (APIKeyCache.save_api_key keys account stack_name v a s).isSome) := by
  refine ⟨by simp [APIKeyCache.save_api_key], ?_, ?_⟩
  · intro a s hne
    by_cases ha : a = account
    · subst ha
      by_cases hs : s = stack_name
      · exact absurd ⟨rfl, hs⟩ hne
      · simp [APIKeyCache.save_api_key, hs]
    · simp [APIKeyCache.save_api_key, ha]
  · intro a s w hw
    by_cases ha : a = account
    · subst ha
      by_cases hs : s = stack_name
      · simp [APIKeyCache.save_api_key, hs]
      · simp [APIKeyCache.save_api_key, hs, hw]
    · simp [APIKeyCache.save_api_key, ha, hw]

/-- Witness for `save_api_key_frame`: saving `("acct", "stack") -> "v"` over
the warm cache updates that pair, leaves `("123456789012", "my-stack")` at its
old value, and keeps that pre-existing entry present. -/
theorem save_api_key_frame_app :
    APIKeyCache.save_api_key warmWorld.localCache "acct" "stack" "v" "acct"
      "stack" = some "v" ∧
    APIKeyCache.save_api_key warmWorld.localCache "acct" "stack" "v"
      "123456789012" "my-stack" = warmWorld.localCache "123456789012"
        "my-stack" ∧
    (APIKeyCache.save_api_key warmWorld.localCache "acct" "stack" "v"
      "123456789012" "my-stack").isSome := by
  have h := save_api_key_frame warmWorld.localCache "acct" "stack" "v"
  exact ⟨h.1, h.2.1 "123456789012" "my-stack" (by decide),
    h.2.2 "123456789012" "my-stack" "cached-key" (by decide)⟩

/-- Claim C10: method registration at the public interface — both
`SecureRestApi.add_methods` and `IAMSecureRestApi.add_methods` raise on zero
HTTP methods (registering nothing), and with one or more methods register
`getattr(method, 'name', method)` for each argument in order: an `Http` member
contributes its symbolic name, a raw string passes through verbatim. -/
theorem add_methods_spec (ms : List HttpOrStr) (h : Http) (s : String) :
    (SecureRestApi.add_methods [] =
        Except.error "At least one HTTP method is required." ∧
      IAMSecureRestApi.add_methods [] =
        Except.error "At least one HTTP method is required.") ∧
    (ms ≠ [] →
      SecureRestApi.add_methods ms = Except.ok (ms.map methodName) ∧
      IAMSecureRestApi.add_methods ms = Except.ok (ms.map methodName)) ∧
    methodName (Sum.inl h) = h.name ∧
    methodName (Sum.inr s) = s := by
  refine ⟨⟨rfl, rfl⟩, ?_, rfl, rfl⟩
  intro hne
  constructor <;>
    simp [SecureRestApi.add_methods, IAMSecureRestApi.add_methods,
      List.isEmpty_iff, hne]

/-- Witness for `add_methods_spec`: registering `[Http.GET, "custom"]` on both
APIs yields `["GET", "custom"]`. -/
theorem add_methods_spec_app :
    SecureRestApi.add_methods [Sum.inl Http.GET, Sum.inr "custom"] =
      Except.ok ["GET", "custom"] ∧
    IAMSecureRestApi.add_methods [Sum.inl Http.GET, Sum.inr "custom"] =
      Except.ok ["GET", "custom"] :=
  (add_methods_spec [Sum.inl Http.GET, Sum.inr "custom"] Http.GET "custom").2.1
    (by decide)
